import Mathlib

/-!
Verification of the real-time feedback orchestrator
(`src/api/feedback/feedback_processor.py` and `src/api/feedback/routes.py`).

The Python code is shallowly embedded: Python floats are modelled as exact
rationals (`ℚ`), Python dicts keyed by strings as association lists, Python
`None` as `Option.none`, and raised exceptions as `Except` errors.  Mutating
methods of `FeedbackProcessor` become pure functions from the processor state
to a pair of the new state and an `Except` result; mutations performed before
a `raise` persist in the returned state, exactly as in Python.
-/

deriving instance DecidableEq for Except

namespace Feedback

/-- clamp to the interval [0, 100], as in `max(0, min(100, x))`. -/
def clamp100 (x : ℚ) : ℚ := max 0 (min 100 x)

/-- Python `int(q)`: truncation toward zero. -/
def pyInt (q : ℚ) : Int := q.num / q.den

/-- Python `round(x, 1)` on an exact value: round half to even at one
decimal place. -/
def pyRound1 (x : ℚ) : ℚ :=
  let y : ℚ := x * 10
  let f : Int := ⌊y⌋
  let frac : ℚ := y - f
  let r : Int :=
    if frac < 1/2 then f
    else if frac > 1/2 then f + 1
    else if f % 2 = 0 then f else f + 1
  (r : ℚ) / 10

/-! ## Metric snapshots

The orchestrator reads named fields out of the analyzer dicts with
`.get(key, default)`; a sub-dict of `Option` fields models exactly which keys
are present. -/

/-- one entry of `speech['filler_words']`: `{'word': ..., 'count': ...}`. -/
structure FillerWord where
  word : String
  count : Nat
deriving DecidableEq

/-- the `tone` sub-dict of an audio metrics snapshot. -/
structure ToneMetrics where
  pitch_variance : Option ℚ := none
  pitch_range : Option (ℚ × ℚ) := none
deriving DecidableEq

/-- the `speech` sub-dict of an audio metrics snapshot. -/
structure SpeechMetrics where
  articulation_score : Option ℚ := none
  speaking_rate : Option ℚ := none
  filler_words : Option (List FillerWord) := none
deriving DecidableEq

/-- the `emotion` sub-dict of an audio metrics snapshot. -/
structure EmotionMetrics where
  stress_level : Option ℚ := none
deriving DecidableEq

/-- an audio metrics dict (`AudioAnalyzer.to_dict` output, or the
client-supplied dict on the HTTP path); a sub-dict is `none` when its key is
absent. -/
structure AudioMetrics where
  tone : Option ToneMetrics := none
  speech : Option SpeechMetrics := none
  emotion : Option EmotionMetrics := none
deriving DecidableEq

/-- the `facial` sub-dict of a vision metrics snapshot. -/
structure FacialMetrics where
  eye_contact : Option ℚ := none
  smile_genuineness : Option ℚ := none
deriving DecidableEq

/-- the `body` sub-dict of a vision metrics snapshot. -/
structure BodyMetrics where
  posture : Option String := none
  energy_level : Option ℚ := none
deriving DecidableEq

/-- the `professional` sub-dict of a vision metrics snapshot. -/
structure ProfessionalMetrics where
  overall_polish : Option ℚ := none
deriving DecidableEq

/-- a vision metrics dict (`VisionAnalyzer.to_dict` output, or the
client-supplied dict on the HTTP path). -/
structure VisionMetrics where
  facial : Option FacialMetrics := none
  body : Option BodyMetrics := none
  professional : Option ProfessionalMetrics := none
deriving DecidableEq

/-- the five fused scores (`_calculate_scores` returns a dict with exactly
these keys). -/
structure Scores where
  confidence : ℚ
  engagement : ℚ
  clarity : ℚ
  authenticity : ℚ
  professionalPresence : ℚ
deriving DecidableEq

/-- user baseline mapping (fetched at session start; the current code never
produces one and `_calculate_scores` never reads it). -/
abbrev Baseline := List (String × ℚ)

/-- `FeedbackProcessor._calculate_scores`: weighted fusion of the latest
audio/vision snapshots into five scores, each defaulting to 70 when no
component signal is present, all clamped to [0, 100] at the end. -/
def calculate_scores (audio_metrics : Option AudioMetrics)
    (vision_metrics : Option VisionMetrics) (_baseline : Option Baseline) :
    Scores :=
  -- confidence components
  let confidence_components : List ℚ :=
    (match audio_metrics.bind (fun a => a.tone) with
     | some tone =>
       let pitch_variance := tone.pitch_variance.getD 20
       let vocal_steadiness := max 0 (100 - pitch_variance * 2)
       [vocal_steadiness * 0.4]
     | none => []) ++
    (match vision_metrics.bind (fun v => v.facial) with
     | some facial =>
       let eye_contact := facial.eye_contact.getD 50
       [eye_contact * 0.3]
     | none => []) ++
    (match vision_metrics.bind (fun v => v.body) with
     | some body =>
       let posture := body.posture.getD "neutral"
       let posture_score : ℚ :=
         if posture = "open" then 90 else if posture = "neutral" then 70 else 50
       [posture_score * 0.3]
     | none => [])
  let confidence : ℚ :=
    if confidence_components = [] then 70 else confidence_components.sum
  -- engagement components
  let engagement_components : List ℚ :=
    (match vision_metrics.bind (fun v => v.body) with
     | some body =>
       let energy_level := body.energy_level.getD 50
       [energy_level * 0.5]
     | none => []) ++
    (match audio_metrics.bind (fun a => a.tone) with
     | some tone =>
       let pitch_range := tone.pitch_range.getD (0, 0)
       let vocal_variety := min ((pitch_range.2 - pitch_range.1) / 3) 100
       [vocal_variety * 0.5]
     | none => [])
  let engagement : ℚ :=
    if engagement_components = [] then 70 else engagement_components.sum
  -- clarity components
  let clarity_components : List ℚ :=
    match audio_metrics.bind (fun a => a.speech) with
    | some speech =>
      let articulation := speech.articulation_score.getD 70
      let speaking_rate := speech.speaking_rate.getD 150
      let deviation := |speaking_rate - 150|
      let pace_score := max 0 (100 - deviation * 2)
      [articulation * 0.5, pace_score * 0.5]
    | none => []
  let clarity : ℚ :=
    if clarity_components = [] then 70 else clarity_components.sum
  -- authenticity
  let authenticity : ℚ :=
    match vision_metrics.bind (fun v => v.facial) with
    | some facial => (facial.smile_genuineness.getD 0.5) * 100
    | none => 70
  -- professional presence
  let professionalPresence : ℚ :=
    match vision_metrics.bind (fun v => v.professional) with
    | some professional => professional.overall_polish.getD 70
    | none => 70
  { confidence := clamp100 confidence
    engagement := clamp100 engagement
    clarity := clamp100 clarity
    authenticity := clamp100 authenticity
    professionalPresence := clamp100 professionalPresence }

/-- one actionable suggestion, as built by `_generate_suggestions`. -/
structure Suggestion where
  category : String
  priority : String
  message : String
  improvement : String
deriving DecidableEq

/-- `FeedbackProcessor._generate_suggestions`: the ordered rule table; all
matching rules fire, in source order. -/
def generate_suggestions (audio_metrics : Option AudioMetrics)
    (vision_metrics : Option VisionMetrics) (scores : Scores) :
    List Suggestion :=
  let s1 : List Suggestion :=
    if scores.confidence < 60 then
      match audio_metrics.bind (fun a => a.speech) with
      | some speech =>
        let filler_words := speech.filler_words.getD []
        let total_fillers : Nat := (filler_words.map (fun fw => fw.count)).sum
        if total_fillers > 5 then
          [{ category := "speech", priority := "high"
             message := s!"You used {total_fillers} filler words"
             improvement := "Try pausing instead of using filler words" }]
        else []
      | none => []
    else []
  let s2 : List Suggestion :=
    if scores.engagement < 60 then
      match vision_metrics.bind (fun v => v.body) with
      | some body =>
        if body.energy_level.getD 100 < 50 then
          [{ category := "body", priority := "medium"
             message := "Energy level appears low"
             improvement := "Try standing up or using more gestures" }]
        else []
      | none => []
    else []
  let s3 : List Suggestion :=
    if scores.clarity < 60 then
      match audio_metrics.bind (fun a => a.speech) with
      | some speech =>
        let speaking_rate := speech.speaking_rate.getD 150
        if speaking_rate > 180 then
          let r := pyInt speaking_rate
          [{ category := "speech", priority := "high"
             message := s!"Speaking too fast at {r} WPM"
             improvement := "Slow down to 140-160 WPM for clarity" }]
        else []
      | none => []
    else []
  let s4 : List Suggestion :=
    match audio_metrics.bind (fun a => a.emotion) with
    | some emotion =>
      if emotion.stress_level.getD 0 > 70 then
        [{ category := "voice", priority := "high"
           message := "High stress detected in your voice"
           improvement := "Take a deep breath and pause" }]
      else []
    | none => []
  s1 ++ s2 ++ s3 ++ s4

/-! ## Session state -/

/-- one entry of a session's `score_history`. -/
structure HistoryEntry where
  timestamp_ms : Int
  scores : Scores
deriving DecidableEq

/-- the per-session dict created by `start_session` (with the keys
`end_time`/`duration` that `stop_session` adds modelled as options). -/
structure Session where
  session_id : String
  user_id : String
  session_type : String
  start_time : ℚ
  frame_count : Nat
  audio_chunk_count : Nat
  baseline : Option Baseline
  score_history : List HistoryEntry
  end_time : Option ℚ := none
  duration : Option ℚ := none
deriving DecidableEq

/-- the three deltas returned by `_calculate_trends`. -/
structure Trends where
  confidenceDelta : ℚ
  engagementDelta : ℚ
  clarityDelta : ℚ
deriving DecidableEq

/-- `FeedbackProcessor._calculate_trends`: all-zero when fewer than 5 history
entries, else current minus the mean of the last 5, rounded to 1 decimal. -/
def calculate_trends (session : Session) (current_scores : Scores) : Trends :=
  let history := session.score_history
  if history.length < 5 then
    { confidenceDelta := 0, engagementDelta := 0, clarityDelta := 0 }
  else
    let recent := history.drop (history.length - 5)
    let n : ℚ := recent.length
    let avg_confidence := (recent.map (fun h => h.scores.confidence)).sum / n
    let avg_engagement := (recent.map (fun h => h.scores.engagement)).sum / n
    let avg_clarity := (recent.map (fun h => h.scores.clarity)).sum / n
    { confidenceDelta := pyRound1 (current_scores.confidence - avg_confidence)
      engagementDelta := pyRound1 (current_scores.engagement - avg_engagement)
      clarityDelta := pyRound1 (current_scores.clarity - avg_clarity) }

/-- sum of the five scores of a history entry (`sum(h['scores'].values())`). -/
def scoresTotal (s : Scores) : ℚ :=
  s.confidence + s.engagement + s.clarity + s.authenticity +
    s.professionalPresence

/-- Python `max(xs, key=k)`: the first element attaining the maximum key
(later elements replace the running best only when strictly greater). -/
def pyMaxByKey (k : α → ℚ) : List α → Option α
  | [] => none
  | x :: xs => some (xs.foldl (fun best y => if k y > k best then y else best) x)

/-- the dict returned by `_calculate_session_summary`; keys present only on
one of the two branches are options. -/
structure SessionSummary where
  session_id : String
  duration : ℚ
  message : Option String := none
  user_id : Option String := none
  frames_processed : Option Nat := none
  audio_chunks_processed : Option Nat := none
  average_scores : Option Scores := none
  peak_moment : Option HistoryEntry := none
  start_time : Option ℚ := none
  end_time : Option ℚ := none
deriving DecidableEq

/-- `FeedbackProcessor._calculate_session_summary`: a bare
`{session_id, duration, message}` dict when the history is empty, otherwise
averages, counters and the peak moment. -/
def calculate_session_summary (session_data : Session) : SessionSummary :=
  match session_data.score_history with
  | [] =>
    { session_id := session_data.session_id
      duration := session_data.duration.getD 0
      message := some "No data collected" }
  | _ :: _ =>
    let score_history := session_data.score_history
    let n : ℚ := score_history.length
    let avg_scores : Scores :=
      { confidence := (score_history.map (fun e => e.scores.confidence)).sum / n
        engagement := (score_history.map (fun e => e.scores.engagement)).sum / n
        clarity := (score_history.map (fun e => e.scores.clarity)).sum / n
        authenticity :=
          (score_history.map (fun e => e.scores.authenticity)).sum / n
        professionalPresence :=
          (score_history.map (fun e => e.scores.professionalPresence)).sum / n }
    { session_id := session_data.session_id
      duration := session_data.duration.getD 0
      user_id := some session_data.user_id
      frames_processed := some session_data.frame_count
      audio_chunks_processed := some session_data.audio_chunk_count
      average_scores := some avg_scores
      peak_moment := pyMaxByKey (fun e => scoresTotal e.scores) score_history
      start_time := some session_data.start_time
      end_time := session_data.end_time }

/-! ## Processor state and operations -/

/-- lookup in a Python dict modelled as an association list. -/
def dictGet (d : List (String × α)) (k : String) : Option α :=
  (d.find? (fun p => p.1 == k)).map (fun p => p.2)

/-- `d[k] = v` on a Python dict: replace in place, or append a new key. -/
def dictSet (d : List (String × α)) (k : String) (v : α) :
    List (String × α) :=
  if d.any (fun p => p.1 == k) then
    d.map (fun p => if p.1 == k then (k, v) else p)
  else d ++ [(k, v)]

/-- `del d[k]` on a Python dict. -/
def dictDel (d : List (String × α)) (k : String) : List (String × α) :=
  d.filter (fun p => p.1 != k)

/-- raw bytes (`bytes` in Python, frames/audio payloads). -/
abbrev Bytes := List Nat

/-- a decoded video frame (an opaque value handed to the vision analyzer). -/
abbrev Frame := List Nat

/-- the Python exceptions the orchestrator can raise. -/
inductive PyError where
  /-- `ValueError(f"Session {id} not found")`, mapped to HTTP 404. -/
  | notFound (session_id : String)
  /-- `TypeError` from `base64.b64decode(None)` (missing `data` field). -/
  | typeError
  /-- `binascii.Error` from `base64.b64decode` on an undecodable payload. -/
  | binascii
  /-- an exception raised inside an external collaborator
  (`analyze`/`np.frombuffer`). -/
  | collaborator
  /-- `json.JSONDecodeError` from `json.loads` on an unparsable message. -/
  | jsonDecode
deriving DecidableEq

/-- `str(e)` for an exception, as sent in websocket `error` messages. -/
def PyError.message : PyError → String
  | .notFound sid => s!"Session {sid} not found"
  | .typeError => "argument should be a bytes-like object or ASCII string, not NoneType"
  | .binascii => "Invalid base64-encoded string"
  | .collaborator => "analyzer error"
  | .jsonDecode => "Expecting value"

/-- the external feature collaborators (audio/vision analyzers and the frame
decoder), out of scope per the spec; each may raise.  `_decode_frame` catches
its own exceptions and returns `None`, so it is total into `Option`; the
analyzers are invoked bare, so their failures propagate. -/
structure Collaborators where
  /-- `FeedbackProcessor._decode_frame` (cv2 decode; `None` on failure). -/
  decode_frame : Bytes → Option Frame
  /-- `vision_analyzer.analyze` composed with `to_dict`
  (frame, frame number, timestamp — possibly absent on the websocket path). -/
  vision_analyze : Frame → Nat → Option Int → Except Unit VisionMetrics
  /-- `np.frombuffer` composed with `audio_analyzer.analyze` and `to_dict`
  (raw bytes, timestamp, sample rate). -/
  audio_analyze : Bytes → Option Int → Nat → Except Unit AudioMetrics

/-- the mutable state of a `FeedbackProcessor` instance (the Redis client is
treated as absent: every cache/publish call is a no-op on that path). -/
structure ProcState where
  enable_audio : Bool := true
  enable_vision : Bool := true
  frame_sample_rate : Nat := 3
  frame_counter : Nat := 0
  sessions : List (String × Session) := []
deriving DecidableEq

/-- `FeedbackProcessor._load_user_baseline`: the database lookup is not
implemented; always `None`. -/
def load_user_baseline (_user_id : String) : Option Baseline := none

/-- `FeedbackProcessor.start_session` (`now` stands for `time.time()`);
registers the session, silently overwriting an existing one with the same
id. -/
def start_session (st : ProcState) (session_id user_id : String)
    (session_type : String) (now : ℚ) : Session × ProcState :=
  let session_data : Session :=
    { session_id := session_id
      user_id := user_id
      session_type := session_type
      start_time := now
      frame_count := 0
      audio_chunk_count := 0
      baseline := load_user_baseline user_id
      score_history := [] }
  (session_data, { st with sessions := dictSet st.sessions session_id session_data })

/-- `FeedbackProcessor.stop_session`: `NotFound` on an unknown id; otherwise
sets end time and duration, computes the summary, and deletes the session. -/
def stop_session (st : ProcState) (session_id : String) (now : ℚ) :
    ProcState × Except PyError SessionSummary :=
  match dictGet st.sessions session_id with
  | none => (st, .error (.notFound session_id))
  | some session_data =>
    let session_data :=
      { session_data with
          end_time := some now
          duration := some (now - session_data.start_time) }
    let summary := calculate_session_summary session_data
    ({ st with sessions := dictDel st.sessions session_id }, .ok summary)

/-- `FeedbackProcessor.process_frame`: the sampling gate (a process-wide
counter) runs before the session lookup; a sampled-out frame returns `None`
with no lookup at all.  The counter increment persists even when an error is
raised afterwards. -/
def process_frame (c : Collaborators) (st : ProcState) (session_id : String)
    (frame_data : Bytes) (timestamp_ms : Option Int) (frame_number : Option Nat) :
    ProcState × Except PyError (Option VisionMetrics) :=
  if !st.enable_vision then (st, .ok none)
  else
    let st := { st with frame_counter := st.frame_counter + 1 }
    if st.frame_counter % st.frame_sample_rate ≠ 0 then (st, .ok none)
    else
      match dictGet st.sessions session_id with
      | none => (st, .error (.notFound session_id))
      | some session =>
        match c.decode_frame frame_data with
        | none => (st, .ok none)
        | some frame =>
          -- `frame_number or self.frame_counter`: 0 and None are falsy
          let fn : Nat :=
            match frame_number with
            | some n => if n ≠ 0 then n else st.frame_counter
            | none => st.frame_counter
          match c.vision_analyze frame fn timestamp_ms with
          | .error _ => (st, .error .collaborator)
          | .ok result_dict =>
            let session := { session with frame_count := session.frame_count + 1 }
            ({ st with sessions := dictSet st.sessions session_id session },
             .ok (some result_dict))

/-- `FeedbackProcessor.process_audio`: no sampling; session lookup right
after the enable check; the analyzer is invoked unconditionally. -/
def process_audio (c : Collaborators) (st : ProcState) (session_id : String)
    (audio_data : Bytes) (timestamp_ms : Option Int) (sample_rate : Nat) :
    ProcState × Except PyError (Option AudioMetrics) :=
  if !st.enable_audio then (st, .ok none)
  else
    match dictGet st.sessions session_id with
    | none => (st, .error (.notFound session_id))
    | some session =>
      match c.audio_analyze audio_data timestamp_ms sample_rate with
      | .error _ => (st, .error .collaborator)
      | .ok result_dict =>
        let session :=
          { session with audio_chunk_count := session.audio_chunk_count + 1 }
        ({ st with sessions := dictSet st.sessions session_id session },
         .ok (some result_dict))

/-- the metrics excerpt placed in a `FeedbackMessage`. -/
structure MetricsExcerpt where
  facial : Option FacialMetrics
  body : Option BodyMetrics
  voice : Option ToneMetrics
  speech : Option SpeechMetrics
deriving DecidableEq

/-- the dataclass `FeedbackMessage`. -/
structure FeedbackMessage where
  timestamp_ms : Int
  session_id : String
  type : String
  scores : Scores
  metrics : MetricsExcerpt
  suggestions : List Suggestion
  trends : Trends
deriving DecidableEq

/-- `FeedbackProcessor.generate_feedback` (`now_ms` stands for
`int(time.time() * 1000)`, used when no timestamp is supplied): session
lookup, score fusion, suggestions, trends over the pre-append history, then
append and cap the history at the last 50 entries. -/
def generate_feedback (st : ProcState) (session_id : String)
    (audio_metrics : Option AudioMetrics) (vision_metrics : Option VisionMetrics)
    (timestamp_ms : Option Int) (now_ms : Int) :
    ProcState × Except PyError FeedbackMessage :=
  match dictGet st.sessions session_id with
  | none => (st, .error (.notFound session_id))
  | some session =>
    let baseline := session.baseline
    let ts := timestamp_ms.getD now_ms
    let scores := calculate_scores audio_metrics vision_metrics baseline
    let suggestions := generate_suggestions audio_metrics vision_metrics scores
    let trends := calculate_trends session scores
    let history := session.score_history ++ [{ timestamp_ms := ts, scores := scores }]
    let history :=
      if history.length > 50 then history.drop (history.length - 50) else history
    let session := { session with score_history := history }
    let metrics : MetricsExcerpt :=
      { facial := vision_metrics.bind (fun v => v.facial)
        body := vision_metrics.bind (fun v => v.body)
        voice := audio_metrics.bind (fun a => a.tone)
        speech := audio_metrics.bind (fun a => a.speech) }
    let feedback : FeedbackMessage :=
      { timestamp_ms := ts
        session_id := session_id
        type := "realtime"
        scores := scores
        metrics := metrics
        suggestions := suggestions
        trends := trends }
    ({ st with sessions := dictSet st.sessions session_id session }, .ok feedback)

/-! ## HTTP routes (`src/api/feedback/routes.py`) -/

/-- outcome of the non-streaming `POST /process-frame` endpoint. -/
inductive FrameRouteResult where
  /-- 202 with body `{"message": "Frame skipped (sampling)"}`. -/
  | skipped
  /-- 200 with the vision analysis dict. -/
  | metrics (vm : VisionMetrics)
  /-- `HTTPException(404, detail)` from a `ValueError`. -/
  | notFound (detail : String)
  /-- `HTTPException(500, detail)` from any other exception. -/
  | serverError (detail : String)
deriving DecidableEq

/-- the `process_frame` route: forwards to the processor and maps `None` to
the distinct 202 "Frame skipped (sampling)" response, `ValueError` to 404
and any other exception to 500. -/
def route_process_frame (c : Collaborators) (st : ProcState)
    (session_id : String) (timestamp_ms : Int) (frame_number : Option Nat)
    (frame_data : Bytes) : ProcState × FrameRouteResult :=
  match process_frame c st session_id frame_data (some timestamp_ms) frame_number with
  | (st', .ok none) => (st', .skipped)
  | (st', .ok (some result)) => (st', .metrics result)
  | (st', .error (PyError.notFound sid)) =>
    (st', .notFound (PyError.notFound sid).message)
  | (st', .error e) => (st', .serverError e.message)

/-- the response model of `POST /sessions/{session_id}/stop`. -/
structure StopSessionResponse where
  session_id : String
  duration : ℚ
  average_scores : Scores
  frames_processed : Nat
  audio_chunks_processed : Nat
  message : String := "Session stopped successfully"
deriving DecidableEq

/-- outcome of the `stop_session` route. -/
inductive StopRouteResult where
  | ok (resp : StopSessionResponse)
  | notFound (detail : String)
  | serverError (detail : String)
deriving DecidableEq

/-- the `stop_session` route: `ValueError` becomes 404; a summary missing the
`average_scores`/counter keys (empty history) raises `KeyError`, which the
blanket handler turns into a 500. -/
def route_stop_session (st : ProcState) (session_id : String) (now : ℚ) :
    ProcState × StopRouteResult :=
  match stop_session st session_id now with
  | (st', .error (PyError.notFound sid)) =>
    (st', .notFound (PyError.notFound sid).message)
  | (st', .error e) => (st', .serverError e.message)
  | (st', .ok summary) =>
    match summary.average_scores, summary.frames_processed,
        summary.audio_chunks_processed with
    | some avg, some fp, some ac =>
      (st', .ok { session_id := session_id
                  duration := summary.duration
                  average_scores := avg
                  frames_processed := fp
                  audio_chunks_processed := ac })
    | _, _, _ => (st', .serverError "KeyError")

/-! ## Websocket streaming gateway (`websocket_feedback_stream`)

One iteration of the receive loop is modelled as a pure step function.  Any
exception escaping the dispatch or the cadence block is caught by the outer
handler, which sends a best-effort `error` message and tears the connection
down (`closed = true`). -/

/-- the `data` field of an inbound message, as seen by `base64.b64decode`. -/
inductive B64Field where
  /-- the key is absent (`data.get("data")` is `None`): `TypeError`. -/
  | missing
  /-- present but not valid base64: `binascii.Error`. -/
  | invalid
  /-- valid base64 decoding to the given bytes. -/
  | valid (data : Bytes)
deriving DecidableEq

/-- `base64.b64decode(data.get("data"))`. -/
def b64decode : B64Field → Except PyError Bytes
  | .missing => .error .typeError
  | .invalid => .error .binascii
  | .valid b => .ok b

/-- one inbound websocket text message after `websocket.receive_text()`. -/
inductive RawMsg where
  /-- unparsable JSON (`json.loads` raises). -/
  | invalidJson
  /-- a JSON object with the fields the handler reads
  (absent keys are `none`/`missing`). -/
  | msg (type_field : Option String) (timestamp_ms : Option Int)
      (data : B64Field) (frame_number : Option Nat) (sample_rate : Option Nat)
deriving DecidableEq

/-- an outbound websocket message. -/
inductive OutMsg where
  | connected (session_id : String) (message : String)
  | ack (timestamp_ms : Option Int)
  | feedback (fb : FeedbackMessage)
  | error (message : String)
deriving DecidableEq

/-- the handler-local accumulation variables of one websocket connection. -/
structure WsState where
  latest_audio_metrics : Option AudioMetrics := none
  latest_vision_metrics : Option VisionMetrics := none
  last_feedback_time : Int := 0
deriving DecidableEq

/-- result of handling one inbound message: messages sent (in order), the new
processor and connection state, and whether the connection was torn down. -/
structure WsStepResult where
  sent : List OutMsg
  st : ProcState
  ws : WsState
  closed : Bool
deriving DecidableEq

/-- the cadence clock `timestamp_ms if timestamp_ms else
int(asyncio.get_event_loop().time() * 1000)`: the message timestamp unless it
is falsy (`None` or `0`), in which case the wall clock. -/
def wsCurrentTime (ts : Option Int) (now_ms : Int) : Int :=
  match ts with
  | some t => if t ≠ 0 then t else now_ms
  | none => now_ms

/-- one iteration of the `websocket_feedback_stream` receive loop (`now_ms`
stands for the event-loop wall clock): dispatch on the message type, then the
1000 ms cadence gate that runs on every inbound message. -/
def ws_step (c : Collaborators) (session_id : String) (st : ProcState)
    (ws : WsState) (now_ms : Int) (raw : RawMsg) : WsStepResult :=
  match raw with
  | .invalidJson =>
    { sent := [.error PyError.jsonDecode.message], st := st, ws := ws
      closed := true }
  | .msg ty ts dataF frame_number sample_rate =>
    let dispatch : List OutMsg × ProcState × WsState × Option PyError :=
      if ty = some "heartbeat" then
        ([.ack ts], st, ws, none)
      else if ty = some "frame" then
        match b64decode dataF with
        | .error e => ([], st, ws, some e)
        | .ok frame_data =>
          match process_frame c st session_id frame_data ts frame_number with
          | (st', .error e) => ([], st', ws, some e)
          | (st', .ok vision_result) =>
            match vision_result with
            | some vm =>
              ([], st', { ws with latest_vision_metrics := some vm }, none)
            | none => ([], st', ws, none)
      else if ty = some "audio" then
        match b64decode dataF with
        | .error e => ([], st, ws, some e)
        | .ok audio_data =>
          match process_audio c st session_id audio_data ts
              (sample_rate.getD 16000) with
          | (st', .error e) => ([], st', ws, some e)
          | (st', .ok audio_result) =>
            match audio_result with
            | some am =>
              ([], st', { ws with latest_audio_metrics := some am }, none)
            | none => ([], st', ws, none)
      else ([], st, ws, none)
    match dispatch with
    | (sent, st', ws', some e) =>
      { sent := sent ++ [.error e.message], st := st', ws := ws', closed := true }
    | (sent, st', ws', none) =>
      let current_time : Int := wsCurrentTime ts now_ms
      if current_time - ws'.last_feedback_time ≥ 1000 then
        if ws'.latest_audio_metrics.isSome || ws'.latest_vision_metrics.isSome then
          match generate_feedback st' session_id ws'.latest_audio_metrics
              ws'.latest_vision_metrics (some current_time) now_ms with
          | (st2, .error e) =>
            { sent := sent ++ [.error e.message], st := st2, ws := ws'
              closed := true }
          | (st2, .ok fb) =>
            { sent := sent ++ [.feedback fb], st := st2
              ws := { ws' with last_feedback_time := current_time }
              closed := false }
        else { sent := sent, st := st', ws := ws', closed := false }
      else { sent := sent, st := st', ws := ws', closed := false }

/-! ## Concrete fixtures used in witnesses and counterexamples -/

/-- collaborators whose calls all succeed and return empty metric dicts. -/
def stubCollaborators : Collaborators :=
  { decode_frame := fun _ => some []
    vision_analyze := fun _ _ _ => .ok {}
    audio_analyze := fun _ _ _ => .ok {} }

/-- collaborators whose analyzers raise on every call. -/
def failCollaborators : Collaborators :=
  { decode_frame := fun _ => some []
    vision_analyze := fun _ _ _ => .error ()
    audio_analyze := fun _ _ _ => .error () }

/-- an audio metrics dict of the shape `AudioAnalyzer.to_dict` always
produces: the `tone`, `speech` and `emotion` sections are all present. -/
def fullAudioMetrics : AudioMetrics :=
  { tone := some { pitch_variance := some 20, pitch_range := some (100, 200) }
    speech := some { articulation_score := some 70, speaking_rate := some 190
                     filler_words := some [] }
    emotion := some { stress_level := some 30 } }

/-- collaborators whose audio analyzer returns `fullAudioMetrics`. -/
def fullAudioCollaborators : Collaborators :=
  { decode_frame := fun _ => some []
    vision_analyze := fun _ _ _ => .ok {}
    audio_analyze := fun _ _ _ => .ok fullAudioMetrics }

/-- a processor state holding one freshly started session `s1`. -/
def oneSessionState : ProcState :=
  (start_session {} "s1" "u1" "practice" 0).2

/-- an empty processor state, as freshly constructed in `get_processor`. -/
def initialProcState : ProcState := {}

/-- the last-50-entry suffix that the history cap of `generate_feedback`
keeps (`score_history[-50:]`). -/
def last50 (l : List HistoryEntry) : List HistoryEntry :=
  l.drop (l.length - 50)

/-- the history entry appended by one `generate_feedback` call with the given
inputs (timestamp, audio metrics, vision metrics). -/
def feedbackEntry (baseline : Option Baseline) (now : Int)
    (i : Option AudioMetrics × Option VisionMetrics × Option Int) :
    HistoryEntry :=
  { timestamp_ms := i.2.2.getD now
    scores := calculate_scores i.1 i.2.1 baseline }

/-- repeatedly invoke `generate_feedback` on one session, threading the
processor state (the driver loop of the history-cap property). -/
def run_feedbacks (st : ProcState) (sid : String)
    (inputs : List (Option AudioMetrics × Option VisionMetrics × Option Int))
    (now : Int) : ProcState :=
  inputs.foldl (fun s i => (generate_feedback s sid i.1 i.2.1 i.2.2 now).1) st

/-! ## Helper lemmas -/

theorem find?_set_map (d : List (String × α)) (k : String) (v : α)
    (h : d.any (fun p => p.1 == k) = true) :
    (d.map (fun p => if p.1 == k then (k, v) else p)).find? (fun p => p.1 == k)
      = some (k, v) := by
  induction d with
  | nil => simp at h
  | cons p d ih =>
    cases hbeq : (p.1 == k) with
    | true =>
      have hpk : p.1 = k := by simpa using hbeq
      simp [List.find?_cons, hpk]
    | false =>
      simp only [List.any_cons, hbeq, Bool.false_or] at h
      simp only [List.map_cons, hbeq, Bool.false_eq_true, if_false,
        List.find?_cons, ih h]

theorem find?_append_new (d : List (String × α)) (k : String) (v : α)
    (h : d.any (fun p => p.1 == k) = false) :
    (d ++ [(k, v)]).find? (fun p => p.1 == k) = some (k, v) := by
  induction d with
  | nil => simp [List.find?_cons]
  | cons p d ih =>
    simp only [List.any_cons, Bool.or_eq_false_iff] at h
    simp only [List.cons_append, List.find?_cons, h.1, ih h.2]

theorem dictGet_dictSet_self (d : List (String × α)) (k : String) (v : α) :
    dictGet (dictSet d k v) k = some v := by
  unfold dictGet dictSet
  by_cases h : d.any (fun p => p.1 == k) = true
  · rw [if_pos h, find?_set_map d k v h]
    rfl
  · have h' : d.any (fun p => p.1 == k) = false := by
      rcases Bool.eq_false_or_eq_true (d.any fun p => p.1 == k) with hh | hh
      · exact absurd hh h
      · exact hh
    rw [if_neg h, find?_append_new d k v h']
    rfl

theorem dictGet_dictDel_self (d : List (String × α)) (k : String) :
    dictGet (dictDel d k) k = none := by
  unfold dictGet dictDel
  rw [List.find?_eq_none.mpr]
  · rfl
  · intro x hx
    have hmem := List.of_mem_filter hx
    simp only [bne_iff_ne, ne_eq] at hmem
    simp [hmem]

/-! ## C1 — session lookup on ingestion/feedback operations -/

/-- C1 (amended): with the default configuration, `generate_feedback` and
`process_audio` begin with the session lookup and fail with the
distinguishable `NotFound` error on an unknown session id; `process_frame`
runs the sampling gate first, so a sampled-out frame returns the silent skip
result (`None`) without any session lookup, and only frames accepted by the
gate fail with `NotFound`. -/
theorem C1_session_lookup_amended :
    (∀ (st : ProcState) (sid : String) (am : Option AudioMetrics)
        (vm : Option VisionMetrics) (ts : Option Int) (now : Int),
      dictGet st.sessions sid = none →
      generate_feedback st sid am vm ts now = (st, .error (.notFound sid))) ∧
    (∀ (c : Collaborators) (st : ProcState) (sid : String) (data : Bytes)
        (ts : Option Int) (sr : Nat),
      st.enable_audio = true → dictGet st.sessions sid = none →
      process_audio c st sid data ts sr = (st, .error (.notFound sid))) ∧
    (∀ (c : Collaborators) (st : ProcState) (sid : String) (data : Bytes)
        (ts : Option Int) (fn : Option Nat),
      st.enable_vision = true →
      (st.frame_counter + 1) % st.frame_sample_rate = 0 →
      dictGet st.sessions sid = none →
      process_frame c st sid data ts fn =
        ({ st with frame_counter := st.frame_counter + 1 },
         .error (.notFound sid))) ∧
    (∀ (c : Collaborators) (st : ProcState) (sid : String) (data : Bytes)
        (ts : Option Int) (fn : Option Nat),
      st.enable_vision = true →
      (st.frame_counter + 1) % st.frame_sample_rate ≠ 0 →
      process_frame c st sid data ts fn =
        ({ st with frame_counter := st.frame_counter + 1 }, .ok none)) := by
  refine ⟨?_, ?_, ?_, ?_⟩
  · intro st sid am vm ts now h
    simp [generate_feedback, h]
  · intro c st sid data ts sr hea h
    simp [process_audio, hea, h]
  · intro c st sid data ts fn hev hmod h
    simp [process_frame, hev, hmod, h]
  · intro c st sid data ts fn hev hmod
    simp [process_frame, hev, hmod]

/-- C1 witness: the four conjuncts instantiated at concrete states. -/
theorem C1_session_lookup_witness :
    generate_feedback initialProcState "s1" none none none 0 =
      (initialProcState, .error (.notFound "s1")) ∧
    process_audio stubCollaborators initialProcState "s1" [] none 16000 =
      (initialProcState, .error (.notFound "s1")) ∧
    process_frame stubCollaborators
        { initialProcState with frame_counter := 2 } "s1" [] none none =
      ({ initialProcState with frame_counter := 3 },
       .error (.notFound "s1")) ∧
    process_frame stubCollaborators initialProcState "s1" [] none none =
      ({ initialProcState with frame_counter := 1 }, .ok none) :=
  ⟨C1_session_lookup_amended.1 _ _ none none none 0 (by decide),
   C1_session_lookup_amended.2.1 _ _ _ [] none 16000 (by decide) (by decide),
   C1_session_lookup_amended.2.2.1 _ _ _ [] none none (by decide) (by decide)
     (by decide),
   C1_session_lookup_amended.2.2.2 _ _ _ [] none none (by decide) (by decide)⟩

/-- C1 counterexample: `process_frame` invoked on an empty session store with
a sampled-out frame succeeds silently with `None` instead of failing with
`NotFound` — the operation does not begin with the session lookup. -/
theorem C1_session_lookup_cx :
    dictGet initialProcState.sessions "s1" = none ∧
    (process_frame stubCollaborators initialProcState "s1" [] (some 0) none).2 =
      .ok none ∧
    (process_frame stubCollaborators initialProcState "s1" [] (some 0) none).2 ≠
      .error (.notFound "s1") := by
  refine ⟨by decide, by decide, by decide⟩

/-! ## C2 — malformed inbound streaming messages -/

/-- C2 (amended): an inbound message with an unsupported or missing `type` is
silently ignored and the connection remains open (shown here with no cached
metrics, so the cadence gate sends nothing), but a `frame`/`audio` message
whose `data` field is missing or undecodable raises inside the handler; the
outer exception handler sends a best-effort `error` message and tears the
connection down — the same fate as `NotFound`, not a logged-and-ignored
message. -/
theorem C2_malformed_message_amended :
    (∀ (c : Collaborators) (sid : String) (st : ProcState) (ws : WsState)
        (now : Int) (ty : Option String) (ts : Option Int) (dataF : B64Field)
        (fn sr : Option Nat),
      ty ≠ some "heartbeat" → ty ≠ some "frame" → ty ≠ some "audio" →
      ws.latest_audio_metrics = none → ws.latest_vision_metrics = none →
      ws_step c sid st ws now (.msg ty ts dataF fn sr) =
        { sent := [], st := st, ws := ws, closed := false }) ∧
    (∀ (c : Collaborators) (sid : String) (st : ProcState) (ws : WsState)
        (now : Int) (ts : Option Int) (fn sr : Option Nat),
      ws_step c sid st ws now (.msg (some "frame") ts .missing fn sr) =
        { sent := [.error PyError.typeError.message], st := st, ws := ws
          closed := true }) ∧
    (∀ (c : Collaborators) (sid : String) (st : ProcState) (ws : WsState)
        (now : Int) (ts : Option Int) (fn sr : Option Nat),
      ws_step c sid st ws now (.msg (some "frame") ts .invalid fn sr) =
        { sent := [.error PyError.binascii.message], st := st, ws := ws
          closed := true }) ∧
    (∀ (c : Collaborators) (sid : String) (st : ProcState) (ws : WsState)
        (now : Int) (ts : Option Int) (fn sr : Option Nat),
      ws_step c sid st ws now (.msg (some "audio") ts .invalid fn sr) =
        { sent := [.error PyError.binascii.message], st := st, ws := ws
          closed := true }) := by
  refine ⟨?_, ?_, ?_, ?_⟩
  · intro c sid st ws now ty ts dataF fn sr h1 h2 h3 ha hv
    simp [ws_step, h1, h2, h3, ha, hv]
  · intro c sid st ws now ts fn sr
    simp [ws_step, b64decode]
  · intro c sid st ws now ts fn sr
    simp [ws_step, b64decode]
  · intro c sid st ws now ts fn sr
    simp [ws_step, b64decode]

/-- C2 witness: the four conjuncts instantiated at concrete inputs. -/
theorem C2_malformed_message_witness :
    ws_step stubCollaborators "s1" oneSessionState {} 0
        (.msg (some "bogus") (some 1) .missing none none) =
      { sent := [], st := oneSessionState, ws := {}, closed := false } ∧
    ws_step stubCollaborators "s1" oneSessionState {} 0
        (.msg (some "frame") (some 1) .missing none none) =
      { sent := [.error PyError.typeError.message], st := oneSessionState
        ws := {}, closed := true } ∧
    ws_step stubCollaborators "s1" oneSessionState {} 0
        (.msg (some "frame") (some 1) .invalid none none) =
      { sent := [.error PyError.binascii.message], st := oneSessionState
        ws := {}, closed := true } ∧
    ws_step stubCollaborators "s1" oneSessionState {} 0
        (.msg (some "audio") (some 1) .invalid none none) =
      { sent := [.error PyError.binascii.message], st := oneSessionState
        ws := {}, closed := true } :=
  ⟨C2_malformed_message_amended.1 _ _ _ _ 0 _ _ _ none none (by decide)
      (by decide) (by decide) (by decide) (by decide),
   C2_malformed_message_amended.2.1 _ _ _ _ 0 _ none none,
   C2_malformed_message_amended.2.2.1 _ _ _ _ 0 _ none none,
   C2_malformed_message_amended.2.2.2 _ _ _ _ 0 _ none none⟩

/-- C2 counterexample: a single `frame` message with an undecodable base64
payload closes the connection (`closed = true`) instead of being ignored with
the connection left open. -/
theorem C2_malformed_message_cx :
    (ws_step stubCollaborators "s1" oneSessionState {} 0
        (.msg (some "frame") (some 1) .invalid none none)).closed = true := by
  decide

/-! ## C3 — feature extractor raising during ingestion -/

/-- C3 (amended): an exception raised by the vision or audio analyzer during
ingestion is not caught at the call site — it propagates out of
`process_frame`/`process_audio` to the gateway's outer handler, which sends a
best-effort `error` message and closes the connection.  The session itself
stays registered in the store (only the frame decode step is caught at the
call site and treated as a skipped frame). -/
theorem C3_collaborator_failure_amended :
    (∀ (c : Collaborators) (sid : String) (st : ProcState) (ws : WsState)
        (now : Int) (ts : Option Int) (fn sr : Option Nat) (data : Bytes)
        (s : Session) (fr : Frame),
      st.enable_vision = true →
      (st.frame_counter + 1) % st.frame_sample_rate = 0 →
      dictGet st.sessions sid = some s →
      c.decode_frame data = some fr →
      (∀ f n t, c.vision_analyze f n t = .error ()) →
      ws_step c sid st ws now (.msg (some "frame") ts (.valid data) fn sr) =
        { sent := [.error PyError.collaborator.message]
          st := { st with frame_counter := st.frame_counter + 1 }
          ws := ws, closed := true } ∧
      dictGet (ws_step c sid st ws now
          (.msg (some "frame") ts (.valid data) fn sr)).st.sessions sid =
        some s) ∧
    (∀ (c : Collaborators) (sid : String) (st : ProcState) (ws : WsState)
        (now : Int) (ts : Option Int) (fn sr : Option Nat) (data : Bytes)
        (s : Session),
      st.enable_audio = true →
      dictGet st.sessions sid = some s →
      (∀ b t r, c.audio_analyze b t r = .error ()) →
      ws_step c sid st ws now (.msg (some "audio") ts (.valid data) fn sr) =
        { sent := [.error PyError.collaborator.message], st := st, ws := ws
          closed := true } ∧
      dictGet (ws_step c sid st ws now
          (.msg (some "audio") ts (.valid data) fn sr)).st.sessions sid =
        some s) := by
  constructor
  · intro c sid st ws now ts fn sr data s fr hev hmod hs hdec hana
    have hstep :
        ws_step c sid st ws now (.msg (some "frame") ts (.valid data) fn sr) =
          { sent := [.error PyError.collaborator.message]
            st := { st with frame_counter := st.frame_counter + 1 }
            ws := ws, closed := true } := by
      simp [ws_step, b64decode, process_frame, hev, hmod, hs, hdec, hana]
    exact ⟨hstep, by rw [hstep]; exact hs⟩
  · intro c sid st ws now ts fn sr data s hea hs hana
    have hstep :
        ws_step c sid st ws now (.msg (some "audio") ts (.valid data) fn sr) =
          { sent := [.error PyError.collaborator.message], st := st, ws := ws
            closed := true } := by
      simp [ws_step, b64decode, process_audio, hea, hs, hana]
    exact ⟨hstep, by rw [hstep]; exact hs⟩

/-- C3 witness: both conjuncts instantiated with analyzers that always
raise. -/
theorem C3_collaborator_failure_witness :
    (ws_step failCollaborators "s1"
        { oneSessionState with frame_counter := 2 } {} 0
        (.msg (some "frame") (some 1) (.valid []) none none)).closed = true ∧
    (ws_step failCollaborators "s1" oneSessionState {} 0
        (.msg (some "audio") (some 1) (.valid []) none none)).closed = true := by
  constructor
  · have h := (C3_collaborator_failure_amended.1 failCollaborators "s1"
      { oneSessionState with frame_counter := 2 } {} 0 (some 1) none none []
      ((start_session {} "s1" "u1" "practice" 0).1) [] (by decide) (by decide)
      (by decide) rfl (fun _ _ _ => rfl)).1
    rw [h]
  · have h := (C3_collaborator_failure_amended.2 failCollaborators "s1"
      oneSessionState {} 0 (some 1) none none []
      ((start_session {} "s1" "u1" "practice" 0).1) (by decide) (by decide)
      (fun _ _ _ => rfl)).1
    rw [h]

/-- C3 counterexample: when the vision analyzer raises on an accepted frame,
the connection is torn down (`closed = true`) — the failure is not treated as
"no metrics available this cycle" with the connection continuing. -/
theorem C3_collaborator_failure_cx :
    (ws_step failCollaborators "s1"
        { oneSessionState with frame_counter := 2 } {} 0
        (.msg (some "frame") (some 1) (.valid []) none none)).closed = true ∧
    (ws_step failCollaborators "s1"
        { oneSessionState with frame_counter := 2 } {} 0
        (.msg (some "frame") (some 1) (.valid []) none none)).sent =
      [.error PyError.collaborator.message] := by
  refine ⟨by decide, by decide⟩

/-! ## C4 — heartbeat handling -/

/-- ws_step on a heartbeat message, written as one closed form: always an
immediate `ack` carrying the inbound timestamp, followed by whatever the
per-message cadence gate produces. -/
theorem ws_step_heartbeat (c : Collaborators) (sid : String) (st : ProcState)
    (ws : WsState) (now : Int) (ts : Option Int) (dataF : B64Field)
    (fn sr : Option Nat) :
    ws_step c sid st ws now (.msg (some "heartbeat") ts dataF fn sr) =
      (if wsCurrentTime ts now - ws.last_feedback_time ≥ 1000 then
        if ws.latest_audio_metrics.isSome || ws.latest_vision_metrics.isSome then
          match generate_feedback st sid ws.latest_audio_metrics
              ws.latest_vision_metrics (some (wsCurrentTime ts now)) now with
          | (st2, .error e) =>
            { sent := [.ack ts, .error e.message], st := st2, ws := ws
              closed := true }
          | (st2, .ok fb) =>
            { sent := [.ack ts, .feedback fb], st := st2
              ws := { ws with last_feedback_time := wsCurrentTime ts now }
              closed := false }
        else { sent := [.ack ts], st := st, ws := ws, closed := false }
      else { sent := [.ack ts], st := st, ws := ws, closed := false }) := by
  simp only [ws_step]
  norm_num

/-- C4 (amended): the heartbeat branch itself immediately replies `ack` with
the same timestamp and never touches session state; but because the cadence
gate runs after every inbound message, handling a heartbeat can still
generate and append a feedback entry when at least 1000 ms have elapsed and
some metrics are cached.  When no metrics are cached, or the cadence window
has not elapsed, the step is a pure ack: processor state, session store and
connection state are all unchanged. -/
theorem C4_heartbeat_amended :
    (∀ (c : Collaborators) (sid : String) (st : ProcState) (ws : WsState)
        (now : Int) (ts : Option Int) (dataF : B64Field) (fn sr : Option Nat),
      ∃ rest,
        (ws_step c sid st ws now
          (.msg (some "heartbeat") ts dataF fn sr)).sent = .ack ts :: rest) ∧
    (∀ (c : Collaborators) (sid : String) (st : ProcState) (ws : WsState)
        (now : Int) (ts : Option Int) (dataF : B64Field) (fn sr : Option Nat),
      ws.latest_audio_metrics = none → ws.latest_vision_metrics = none →
      ws_step c sid st ws now (.msg (some "heartbeat") ts dataF fn sr) =
        { sent := [.ack ts], st := st, ws := ws, closed := false }) ∧
    (∀ (c : Collaborators) (sid : String) (st : ProcState) (ws : WsState)
        (now : Int) (ts : Option Int) (dataF : B64Field) (fn sr : Option Nat),
      wsCurrentTime ts now - ws.last_feedback_time < 1000 →
      ws_step c sid st ws now (.msg (some "heartbeat") ts dataF fn sr) =
        { sent := [.ack ts], st := st, ws := ws, closed := false }) := by
  refine ⟨?_, ?_, ?_⟩
  · intro c sid st ws now ts dataF fn sr
    rw [ws_step_heartbeat]
    split_ifs
    · rcases hgf : generate_feedback st sid ws.latest_audio_metrics
          ws.latest_vision_metrics (some (wsCurrentTime ts now)) now with ⟨st2, res⟩
      cases res <;> simp
    · exact ⟨[], rfl⟩
    · exact ⟨[], rfl⟩
  · intro c sid st ws now ts dataF fn sr ha hv
    rw [ws_step_heartbeat]
    simp [ha, hv]
  · intro c sid st ws now ts dataF fn sr hlt
    rw [ws_step_heartbeat, if_neg (not_le.mpr hlt)]

/-- C4 witness: the three conjuncts instantiated concretely. -/
theorem C4_heartbeat_witness :
    (∃ rest,
      (ws_step stubCollaborators "s1" oneSessionState {} 0
        (.msg (some "heartbeat") (some 7) .missing none none)).sent =
          .ack (some 7) :: rest) ∧
    ws_step stubCollaborators "s1" oneSessionState {} 0
        (.msg (some "heartbeat") (some 7) .missing none none) =
      { sent := [.ack (some 7)], st := oneSessionState, ws := {}
        closed := false } ∧
    ws_step stubCollaborators "s1" oneSessionState
        { last_feedback_time := 0 } 0
        (.msg (some "heartbeat") (some 500) .missing none none) =
      { sent := [.ack (some 500)], st := oneSessionState
        ws := { last_feedback_time := 0 }, closed := false } :=
  ⟨C4_heartbeat_amended.1 _ _ _ _ 0 _ _ none none,
   C4_heartbeat_amended.2.1 _ _ _ _ 0 _ _ none none rfl rfl,
   C4_heartbeat_amended.2.2 _ _ _ _ 0 _ _ none none (by decide)⟩

/-- C4 counterexample: with cached audio metrics and an open cadence window,
handling a heartbeat appends a feedback entry to the session's score history
— the session state does not stay unchanged. -/
theorem C4_heartbeat_cx :
    ((dictGet oneSessionState.sessions "s1").map
        (fun s => s.score_history.length) = some 0) ∧
    ((dictGet (ws_step stubCollaborators "s1" oneSessionState
          { latest_audio_metrics := some fullAudioMetrics } 5000
          (.msg (some "heartbeat") (some 2000) .missing none none)).st.sessions
        "s1").map (fun s => s.score_history.length) = some 1) := by
  refine ⟨by decide, by decide⟩

/-! ## C5 — confidence fusion formula -/

/-- C5: when the vocal-steadiness, eye-contact and posture signals are all
present, the fused confidence score is
`0.4·max(0, 100 − 2·pitchVariance) + 0.3·eyeContact + 0.3·postureScore`
(postureScore 90 for "open", 70 for "neutral", 50 otherwise), clamped to
[0, 100] as the final step. -/
theorem C5_confidence_formula (am : AudioMetrics) (vm : VisionMetrics)
    (b : Option Baseline) (t : ToneMetrics) (f : FacialMetrics)
    (bd : BodyMetrics) (pv ec : ℚ) (p : String)
    (ht : am.tone = some t) (hpv : t.pitch_variance = some pv)
    (hf : vm.facial = some f) (hec : f.eye_contact = some ec)
    (hb : vm.body = some bd) (hp : bd.posture = some p) :
    (calculate_scores (some am) (some vm) b).confidence =
      clamp100 (0.4 * max 0 (100 - 2 * pv) + 0.3 * ec +
        0.3 * (if p = "open" then 90 else if p = "neutral" then 70 else 50)) := by
  simp only [calculate_scores, Option.bind_eq_bind, Option.some_bind, ht, hpv,
    hf, hec, hb, hp, Option.getD_some]
  simp only [List.cons_append, List.nil_append, List.sum_cons, List.sum_nil]
  norm_num
  rw [if_neg (by simp)]
  have hmul : (100 : ℚ) - pv * 2 = 100 - 2 * pv := by ring
  rw [hmul]
  congr 1
  ring

/-- C5 witness: the formula instantiated at pitch variance 10, eye contact
80 and posture "open". -/
theorem C5_confidence_formula_witness :
    (calculate_scores
        (some { tone := some { pitch_variance := some 10 } })
        (some { facial := some { eye_contact := some 80 }
                body := some { posture := some "open" } }) none).confidence =
      clamp100 (0.4 * max 0 (100 - 2 * 10) + 0.3 * 80 +
        0.3 * (if "open" = "open" then 90
               else if "open" = "neutral" then 70 else 50)) :=
  C5_confidence_formula { tone := some { pitch_variance := some 10 } }
    { facial := some { eye_contact := some 80 }
      body := some { posture := some "open" } }
    none { pitch_variance := some 10 } { eye_contact := some 80 }
    { posture := some "open" } 10 80 "open" rfl rfl rfl rfl rfl rfl

/-! ## C6 — trend computation -/

/-- C6: the trends of a generated feedback message are all-zero deltas when
the session has fewer than 5 recorded history entries; otherwise each delta
is the current score minus the arithmetic mean of that score over the last 5
history entries as they stood before the current scores are appended, rounded
to 1 decimal place. -/
theorem C6_trend_computation (st : ProcState) (sid : String) (s : Session)
    (am : Option AudioMetrics) (vm : Option VisionMetrics) (ts : Option Int)
    (now : Int) (hs : dictGet st.sessions sid = some s) :
    (generate_feedback st sid am vm ts now).2.map (fun fb => fb.trends) =
      .ok (if s.score_history.length < 5 then
        { confidenceDelta := 0, engagementDelta := 0, clarityDelta := 0 }
      else
        let current := calculate_scores am vm s.baseline
        let recent := s.score_history.drop (s.score_history.length - 5)
        { confidenceDelta := pyRound1 (current.confidence -
            (recent.map (fun h => h.scores.confidence)).sum / 5)
          engagementDelta := pyRound1 (current.engagement -
            (recent.map (fun h => h.scores.engagement)).sum / 5)
          clarityDelta := pyRound1 (current.clarity -
            (recent.map (fun h => h.scores.clarity)).sum / 5) }) := by
  simp only [generate_feedback, hs, Except.map]
  unfold calculate_trends
  by_cases hlen : s.score_history.length < 5
  · simp [hlen]
  · have hrec : (s.score_history.drop (s.score_history.length - 5)).length = 5 := by
      rw [List.length_drop]
      omega
    simp [hlen, hrec]

/-- C6 witness: a freshly started session has an empty history, so the first
feedback message reports all-zero deltas. -/
theorem C6_trend_computation_witness :
    (generate_feedback oneSessionState "s1" none none (some 1) 0).2.map
        (fun fb => fb.trends) =
      .ok (if ((start_session {} "s1" "u1" "practice" 0).1).score_history.length < 5
        then { confidenceDelta := 0, engagementDelta := 0, clarityDelta := 0 }
      else
        let current := calculate_scores none none
          ((start_session {} "s1" "u1" "practice" 0).1).baseline
        let recent := ((start_session {} "s1" "u1" "practice" 0).1).score_history.drop
          (((start_session {} "s1" "u1" "practice" 0).1).score_history.length - 5)
        { confidenceDelta := pyRound1 (current.confidence -
            (recent.map (fun h => h.scores.confidence)).sum / 5)
          engagementDelta := pyRound1 (current.engagement -
            (recent.map (fun h => h.scores.engagement)).sum / 5)
          clarityDelta := pyRound1 (current.clarity -
            (recent.map (fun h => h.scores.clarity)).sum / 5) }) :=
  C6_trend_computation oneSessionState "s1"
    ((start_session {} "s1" "u1" "practice" 0).1) none none (some 1) 0
    (by decide)

/-! ## C7 — history cap -/

theorem trim_eq_last50 (l : List HistoryEntry) :
    (if l.length > 50 then l.drop (l.length - 50) else l) = last50 l := by
  unfold last50
  by_cases h : l.length > 50
  · rw [if_pos h]
  · rw [if_neg h]
    have h0 : l.length - 50 = 0 := by omega
    rw [h0, List.drop_zero]

theorem last50_append (a b : List HistoryEntry) :
    last50 (last50 a ++ b) = last50 (a ++ b) := by
  simp only [last50, List.length_append, List.length_drop,
    List.drop_append_eq_append_drop, List.drop_drop]
  congr 1
  · congr 1
    omega
  · congr 1
    omega

/-- effect of one `generate_feedback` call on the session it targets: the new
entry is appended and the history is capped to its last 50 entries. -/
theorem generate_feedback_session (st : ProcState) (sid : String) (s : Session)
    (am : Option AudioMetrics) (vm : Option VisionMetrics) (ts : Option Int)
    (now : Int) (hs : dictGet st.sessions sid = some s) :
    dictGet ((generate_feedback st sid am vm ts now).1).sessions sid =
      some { s with score_history := last50 (s.score_history ++ [feedbackEntry s.baseline now (am, vm, ts)]) } := by
  simp only [generate_feedback, hs]
  rw [dictGet_dictSet_self, trim_eq_last50]
  rfl

/-- C7: one `generate_feedback` call leaves the session's history at exactly
`min (previous + 1) 50` entries — it can never exceed 50; and folding 60
feedback generations over a session that starts with an empty history leaves
exactly the 50 most recent entries, in order (the oldest 10 evicted). -/
theorem C7_history_cap :
    (∀ (st : ProcState) (sid : String) (s : Session)
        (am : Option AudioMetrics) (vm : Option VisionMetrics)
        (ts : Option Int) (now : Int),
      dictGet st.sessions sid = some s →
      (dictGet ((generate_feedback st sid am vm ts now).1).sessions sid).map
          (fun s' => s'.score_history.length) =
        some (min (s.score_history.length + 1) 50)) ∧
    (∀ (st : ProcState) (sid : String) (s : Session) (now : Int)
        (inputs : List (Option AudioMetrics × Option VisionMetrics × Option Int)),
      dictGet st.sessions sid = some s →
      s.score_history = [] →
      inputs.length = 60 →
      (dictGet (run_feedbacks st sid inputs now).sessions sid).map
          (fun s' => s'.score_history) =
        some ((inputs.map (feedbackEntry s.baseline now)).drop 10)) := by
  have run_feedbacks_session :
      ∀ (inputs : List (Option AudioMetrics × Option VisionMetrics × Option Int))
        (st : ProcState) (sid : String) (s : Session) (now : Int),
        dictGet st.sessions sid = some s →
        s.score_history.length ≤ 50 →
        dictGet (run_feedbacks st sid inputs now).sessions sid =
          some { s with score_history := last50 (s.score_history ++ inputs.map (feedbackEntry s.baseline now)) } := by
    intro inputs
    induction inputs with
    | nil =>
      intro st sid s now hs hlen
      have h0 : s.score_history.length - 50 = 0 := by omega
      simp only [run_feedbacks, List.foldl_nil, List.map_nil, List.append_nil,
        last50, h0, List.drop_zero]
      exact hs
    | cons i rest ih =>
      intro st sid s now hs hlen
      obtain ⟨ma, mv, mt⟩ := i
      have hstep := generate_feedback_session st sid s ma mv mt now hs
      have hlen' :
          (last50 (s.score_history ++ [feedbackEntry s.baseline now (ma, mv, mt)])).length ≤ 50 := by
        simp only [last50, List.length_drop]
        omega
      have hrest := ih ((generate_feedback st sid ma mv mt now).1) sid
        { s with score_history := last50 (s.score_history ++ [feedbackEntry s.baseline now (ma, mv, mt)]) }
        now hstep hlen'
      simp only [run_feedbacks, List.foldl_cons] at hrest ⊢
      rw [hrest]
      simp only [List.map_cons]
      congr 1
      rw [last50_append]
      congr 1
      simp [List.append_assoc]
  constructor
  · intro st sid s am vm ts now hs
    rw [generate_feedback_session st sid s am vm ts now hs]
    simp [last50]
    omega
  · intro st sid s now inputs hs hhist hlen60
    rw [run_feedbacks_session inputs st sid s now hs (by rw [hhist]; simp)]
    simp only [hhist, List.nil_append, Option.map_some', last50,
      List.length_map, hlen60]

/-- C7 witness: both conjuncts instantiated on a freshly started session, the
second with 60 identical no-metrics inputs. -/
theorem C7_history_cap_witness :
    ((dictGet ((generate_feedback oneSessionState "s1" none none (some 3) 0).1).sessions
        "s1").map (fun s' => s'.score_history.length) =
      some (min (((start_session {} "s1" "u1" "practice" 0).1).score_history.length + 1)
        50)) ∧
    ((dictGet (run_feedbacks oneSessionState "s1"
          (List.replicate 60 (none, none, none)) 0).sessions "s1").map
        (fun s' => s'.score_history) =
      some (((List.replicate 60
          ((none : Option AudioMetrics), (none : Option VisionMetrics),
            (none : Option Int))).map
        (feedbackEntry ((start_session {} "s1" "u1" "practice" 0).1).baseline 0)).drop
          10)) :=
  ⟨C7_history_cap.1 oneSessionState "s1"
      ((start_session {} "s1" "u1" "practice" 0).1) none none (some 3) 0
      (by decide),
   C7_history_cap.2 oneSessionState "s1"
      ((start_session {} "s1" "u1" "practice" 0).1) 0
      (List.replicate 60 (none, none, none)) (by decide) (by decide)
      (by decide)⟩

/-! ## C8 — stop session summary -/

/-- C8 (amended): `stop_session` on an unknown id fails with `NotFound` (404
at the route); on a started session whose history is non-empty it returns the
summary with duration, all five averaged scores, both counters and the peak
moment, and removes the session; but on a started session with an empty
history the summary carries only `session_id`, `duration` and a message —
no `average_scores` and no counters (the HTTP route then 500s on the missing
keys). -/
theorem C8_stop_session_amended :
    (∀ (st : ProcState) (sid : String) (now : ℚ),
      dictGet st.sessions sid = none →
      stop_session st sid now = (st, .error (.notFound sid)) ∧
      route_stop_session st sid now =
        (st, .notFound (PyError.notFound sid).message)) ∧
    (∀ (st : ProcState) (sid : String) (s : Session) (now : ℚ),
      dictGet st.sessions sid = some s → s.score_history ≠ [] →
      (stop_session st sid now).2 =
        .ok { session_id := s.session_id
              duration := now - s.start_time
              user_id := some s.user_id
              frames_processed := some s.frame_count
              audio_chunks_processed := some s.audio_chunk_count
              average_scores := some
                { confidence := (s.score_history.map (fun e => e.scores.confidence)).sum / (s.score_history.length : ℚ)
                  engagement := (s.score_history.map (fun e => e.scores.engagement)).sum / (s.score_history.length : ℚ)
                  clarity := (s.score_history.map (fun e => e.scores.clarity)).sum / (s.score_history.length : ℚ)
                  authenticity := (s.score_history.map (fun e => e.scores.authenticity)).sum / (s.score_history.length : ℚ)
                  professionalPresence := (s.score_history.map (fun e => e.scores.professionalPresence)).sum / (s.score_history.length : ℚ) }
              peak_moment := pyMaxByKey (fun e => scoresTotal e.scores) s.score_history
              start_time := some s.start_time
              end_time := some now } ∧
      dictGet ((stop_session st sid now).1).sessions sid = none) ∧
    (∀ (st : ProcState) (sid : String) (s : Session) (now : ℚ),
      dictGet st.sessions sid = some s → s.score_history = [] →
      (stop_session st sid now).2 =
        .ok { session_id := s.session_id
              duration := now - s.start_time
              message := some "No data collected" } ∧
      dictGet ((stop_session st sid now).1).sessions sid = none) := by
  refine ⟨?_, ?_, ?_⟩
  · intro st sid now h
    constructor
    · simp [stop_session, h]
    · simp [route_stop_session, stop_session, h]
  · intro st sid s now hs hne
    refine ⟨?_, ?_⟩
    · simp only [stop_session, hs]
      unfold calculate_session_summary
      rcases hsh : s.score_history with _ | ⟨e, rest⟩
      · exact absurd hsh hne
      · simp [hsh]
    · simp only [stop_session, hs]
      exact dictGet_dictDel_self st.sessions sid
  · intro st sid s now hs hsh
    refine ⟨?_, ?_⟩
    · simp only [stop_session, hs]
      unfold calculate_session_summary
      simp [hsh]
    · simp only [stop_session, hs]
      exact dictGet_dictDel_self st.sessions sid

/-- C8 witness: the three conjuncts instantiated concretely (unknown id; a
session with one history entry; a freshly started empty-history session). -/
theorem C8_stop_session_witness :
    stop_session initialProcState "s1" 10 =
      (initialProcState, .error (.notFound "s1")) ∧
    (stop_session (run_feedbacks oneSessionState "s1" [(none, none, some 1)] 0)
        "s1" 10).2.map (fun su => su.average_scores.isSome) = .ok true ∧
    (stop_session oneSessionState "s1" 10).2.map (fun su => su.message) =
      .ok (some "No data collected") := by
  refine ⟨?_, ?_, ?_⟩
  · exact (C8_stop_session_amended.1 initialProcState "s1" 10 (by decide)).1
  · rw [(C8_stop_session_amended.2.1
      (run_feedbacks oneSessionState "s1" [(none, none, some 1)] 0) "s1"
      { (start_session {} "s1" "u1" "practice" 0).1 with
          score_history := [{ timestamp_ms := 1
                              scores := calculate_scores none none none }] }
      10 (by decide) (by decide)).1]
    rfl
  · rw [(C8_stop_session_amended.2.2 oneSessionState "s1"
      ((start_session {} "s1" "u1" "practice" 0).1) 10 (by decide) rfl).1]
    rfl

/-- C8 counterexample: stopping a started session that recorded no feedback
yields a summary with no `average_scores` and no counters, and the stop route
answers 500 rather than the documented summary shape. -/
theorem C8_stop_session_cx :
    (stop_session oneSessionState "s1" 10).2.map (fun su => su.average_scores) =
      .ok none ∧
    (stop_session oneSessionState "s1" 10).2.map (fun su => su.frames_processed) =
      .ok none ∧
    (route_stop_session oneSessionState "s1" 10).2 = .serverError "KeyError" := by
  refine ⟨by decide, by decide, by decide⟩

/-! ## C9 — acknowledging sampled-out frames -/

/-- C9 (amended): on the non-streaming path every frame rejected by the
sampling gate is acknowledged with the distinct 202 "Frame skipped
(sampling)" response; on the streaming path a rejected frame produces no
acknowledgment at all — the `None` result is silently discarded and nothing
is sent to the client (shown with no cached metrics, so the cadence gate is
silent too). -/
theorem C9_skipped_frame_amended :
    (∀ (c : Collaborators) (st : ProcState) (sid : String) (ts : Int)
        (fn : Option Nat) (data : Bytes),
      st.enable_vision = true →
      (st.frame_counter + 1) % st.frame_sample_rate ≠ 0 →
      route_process_frame c st sid ts fn data =
        ({ st with frame_counter := st.frame_counter + 1 }, .skipped)) ∧
    (∀ (c : Collaborators) (sid : String) (st : ProcState) (ws : WsState)
        (now : Int) (ts : Option Int) (fn sr : Option Nat) (data : Bytes),
      st.enable_vision = true →
      (st.frame_counter + 1) % st.frame_sample_rate ≠ 0 →
      ws.latest_audio_metrics = none → ws.latest_vision_metrics = none →
      ws_step c sid st ws now (.msg (some "frame") ts (.valid data) fn sr) =
        { sent := [], st := { st with frame_counter := st.frame_counter + 1 }
          ws := ws, closed := false }) := by
  constructor
  · intro c st sid ts fn data hev hmod
    simp [route_process_frame, process_frame, hev, hmod]
  · intro c sid st ws now ts fn sr data hev hmod ha hv
    simp [ws_step, b64decode, process_frame, hev, hmod, ha, hv]

/-- C9 witness: both conjuncts instantiated on a fresh state whose counter
rejects the next frame. -/
theorem C9_skipped_frame_witness :
    route_process_frame stubCollaborators oneSessionState "s1" 100 none [1] =
      ({ oneSessionState with frame_counter := 1 }, .skipped) ∧
    ws_step stubCollaborators "s1" oneSessionState {} 0
        (.msg (some "frame") (some 100) (.valid [1]) none none) =
      { sent := [], st := { oneSessionState with frame_counter := 1 }
        ws := {}, closed := false } :=
  ⟨C9_skipped_frame_amended.1 stubCollaborators oneSessionState "s1" 100 none
      [1] (by decide) (by decide),
   C9_skipped_frame_amended.2 stubCollaborators "s1" oneSessionState {} 0
      (some 100) none none [1] (by decide) (by decide) rfl rfl⟩

/-- C9 counterexample: a frame rejected by the sampling gate on the streaming
path is silently dropped — the step sends no message at all, so the client
receives no "skipped" acknowledgment. -/
theorem C9_skipped_frame_cx :
    (ws_step stubCollaborators "s1" oneSessionState {} 0
        (.msg (some "frame") (some 100) (.valid [1]) none none)).sent = [] := by
  decide

/-! ## C10 — Scenario A (audio-only feedback with speaking rate 190) -/

/-- C10 (amended): feedback scores are exactly `calculate_scores` of the
supplied metrics, and for audio metrics of the shape the audio analyzer
always produces (`tone`, `speech` and `emotion` sections all present) with
`speaking_rate = 190`, the scores satisfy `clarity < 70` (pace penalty) and
`authenticity = professionalPresence = 70`, while confidence and engagement
are not left at the neutral 70: confidence is
`clamp(0.4·max(0, 100 − 2·pitch_variance)) ≤ 40` and engagement is
`clamp(0.5·min((pitchMax − pitchMin)/3, 100)) ≤ 50`. -/
theorem C10_scenario_a_amended :
    (∀ (st : ProcState) (sid : String) (s : Session)
        (am : Option AudioMetrics) (vm : Option VisionMetrics)
        (ts : Option Int) (now : Int),
      dictGet st.sessions sid = some s →
      (generate_feedback st sid am vm ts now).2.map (fun fb => fb.scores) =
        .ok (calculate_scores am vm s.baseline)) ∧
    (∀ (am : AudioMetrics) (b : Option Baseline) (t : ToneMetrics)
        (sp : SpeechMetrics) (pv lo hi art : ℚ),
      am.tone = some t → t.pitch_variance = some pv →
      t.pitch_range = some (lo, hi) →
      am.speech = some sp → sp.speaking_rate = some 190 →
      sp.articulation_score = some art →
      0 ≤ pv → art ≤ 100 →
      (calculate_scores (some am) none b).clarity < 70 ∧
      (calculate_scores (some am) none b).authenticity = 70 ∧
      (calculate_scores (some am) none b).professionalPresence = 70 ∧
      (calculate_scores (some am) none b).confidence =
        clamp100 (max 0 (100 - pv * 2) * 0.4) ∧
      (calculate_scores (some am) none b).engagement =
        clamp100 (min ((hi - lo) / 3) 100 * 0.5) ∧
      (calculate_scores (some am) none b).confidence ≤ 40 ∧
      (calculate_scores (some am) none b).engagement ≤ 50) := by
  constructor
  · intro st sid s am vm ts now hs
    simp [generate_feedback, hs, Except.map]
  · intro am b t sp pv lo hi art ht hpv hpr hsp hrate hart hpv0 hart100
    have hsc : calculate_scores (some am) none b =
        { confidence := clamp100 (max 0 (100 - pv * 2) * 0.4)
          engagement := clamp100 (min ((hi - lo) / 3) 100 * 0.5)
          clarity := clamp100 (art * 0.5 + 20 * 0.5)
          authenticity := 70
          professionalPresence := 70 } := by
      simp only [calculate_scores, Option.bind_eq_bind, Option.some_bind,
        Option.none_bind, ht, hpv, hpr, hsp, hrate, hart, Option.getD_some]
      norm_num [clamp100]
      rw [if_neg (by simp)]
    rw [hsc]
    refine ⟨?_, rfl, rfl, rfl, rfl, ?_, ?_⟩
    · have hle : art * 0.5 + 20 * 0.5 ≤ 60 := by nlinarith
      have : clamp100 (art * 0.5 + 20 * 0.5) ≤ 60 := by
        unfold clamp100
        exact max_le (by norm_num) (le_trans (min_le_right _ _) hle)
      linarith
    · have hvs : max 0 (100 - pv * 2) ≤ 100 := by
        apply max_le
        · norm_num
        · nlinarith
      unfold clamp100
      apply max_le
      · norm_num
      · exact le_trans (min_le_right _ _) (by nlinarith)
    · unfold clamp100
      apply max_le
      · norm_num
      · refine le_trans (min_le_right _ _) ?_
        have : min ((hi - lo) / 3) 100 ≤ 100 := min_le_right _ _
        nlinarith

/-- C10 witness: both conjuncts instantiated with the analyzer-shaped
metrics of `fullAudioMetrics` (pitch variance 20, pitch range 100–200,
articulation 70, speaking rate 190). -/
theorem C10_scenario_a_witness :
    ((generate_feedback oneSessionState "s1" (some fullAudioMetrics) none
        (some 1) 0).2.map (fun fb => fb.scores) =
      .ok (calculate_scores (some fullAudioMetrics) none
        ((start_session {} "s1" "u1" "practice" 0).1).baseline)) ∧
    (calculate_scores (some fullAudioMetrics) none none).clarity < 70 ∧
    (calculate_scores (some fullAudioMetrics) none none).confidence ≤ 40 := by
  refine ⟨?_, ?_, ?_⟩
  · exact C10_scenario_a_amended.1 oneSessionState "s1"
      ((start_session {} "s1" "u1" "practice" 0).1) (some fullAudioMetrics)
      none (some 1) 0 (by decide)
  · exact (C10_scenario_a_amended.2 fullAudioMetrics none
      { pitch_variance := some 20, pitch_range := some (100, 200) }
      { articulation_score := some 70, speaking_rate := some 190
        filler_words := some [] }
      20 100 200 70 rfl rfl rfl rfl rfl rfl (by norm_num) (by norm_num)).1
  · exact (C10_scenario_a_amended.2 fullAudioMetrics none
      { pitch_variance := some 20, pitch_range := some (100, 200) }
      { articulation_score := some 70, speaking_rate := some 190
        filler_words := some [] }
      20 100 200 70 rfl rfl rfl rfl rfl rfl (by norm_num)
      (by norm_num)).2.2.2.2.2.1

/-- C10 counterexample: running the scenario (start a session, ingest one
audio chunk whose analyzer metrics carry `speaking_rate = 190`, generate
feedback with no video metrics) yields confidence 24 and engagement 50/3 —
not the claimed 70 — because the analyzer's metrics always include the tone
section. -/
theorem C10_scenario_a_cx :
    ((generate_feedback oneSessionState "s1" (some fullAudioMetrics) none
        (some 1) 0).2.map (fun fb => fb.scores.confidence) = .ok 24) ∧
    ((generate_feedback oneSessionState "s1" (some fullAudioMetrics) none
        (some 1) 0).2.map (fun fb => fb.scores.confidence) ≠ .ok 70) ∧
    ((generate_feedback oneSessionState "s1" (some fullAudioMetrics) none
        (some 1) 0).2.map (fun fb => fb.scores.engagement) = .ok (50 / 3)) := by
  have hs : dictGet oneSessionState.sessions "s1" =
      some ((start_session {} "s1" "u1" "practice" 0).1) := by decide
  simp only [generate_feedback, hs, Except.map]
  refine ⟨?_, ?_, ?_⟩ <;>
    norm_num [calculate_scores, fullAudioMetrics, start_session,
      load_user_baseline, clamp100, min_def, max_def]

end Feedback
